import Mathlib

/-!
# PlumbID-ui: shallow embedding of `src/app.py`

This file embeds, in Lean, the pure content of the single-file Streamlit
application `app.py` of the PlumbID-ui repository: the query composer, the
OCR client `ocr_space_image_bytes`, the search client `api_search`, the
card renderer `pretty_card`, and the submission orchestrator (lines
90-106).  Network effects are abstracted as explicit function parameters
(`net`), and each embedded operation additionally reports how many network
calls it performed, so that "no network call is made" becomes a provable
statement.  Python truthiness on strings (`x or ""`), `dict.get` with and
without defaults, `" ".join`, `.strip()`, `.upper()` and `.rstrip('/')`
are modelled explicitly.
-/

namespace PlumbID

/-- Python `" ".join(l)`: Lean's `String.intercalate` inserts the
separator between consecutive elements, exactly as Python `str.join`. -/
def joinSpace (l : List String) : String :=
  String.intercalate " " l

/-- Python `str.strip()`: remove leading and trailing whitespace,
modelled on the character list of the string. -/
def pyStrip (s : String) : String :=
  ⟨((s.data.dropWhile Char.isWhitespace).reverse.dropWhile Char.isWhitespace).reverse⟩

/-- Python `str.upper()` (ASCII range, which covers every comparison the
program performs). -/
def pyUpper (s : String) : String :=
  ⟨s.data.map Char.toUpper⟩

/-- Python `str.rstrip('/')`: remove trailing `'/'` characters. -/
def rstripSlash (s : String) : String :=
  ⟨(s.data.reverse.dropWhile (· == '/')).reverse⟩

/-- Query composer, `app.py` line 90:
`combined_query = " ".join([q or "", ocr_text or ""]).strip()`.
For strings, Python `x or ""` is the identity (an empty string is replaced
by the empty string), so the two list entries are the inputs themselves. -/
def compose (q ocr_text : String) : String :=
  pyStrip (joinSpace [q, ocr_text])

/-- A search result item as consumed by `pretty_card` (`app.py` lines
38-63).  Each field models one JSON key; `none` models an absent key. -/
structure Item where
  image_url : Option String
  part_name : Option String
  brand : Option String
  mpn : Option String
  alt_mpn : Option String
  category : Option String
  description : Option String
  compatible_models : Option String
  datasheet_url : Option String
deriving DecidableEq, Repr

/-- One rendered line of a result card, in the order `pretty_card` emits
them via the Streamlit calls. -/
inductive CardLine where
  | image (url : String)
  | noImage
  | title (s : String)
  | brand (s : String)
  | mpn (s : String)
  | altMpn (s : String)
  | category (s : String)
  | description (s : String)
  | compatible (s : String)
  | datasheetLink (url : String)
deriving DecidableEq, Repr

/-- Card renderer, `app.py` lines 38-63.  Faithful points:
* `item.get("image_url") or ""`: absent and empty both give `""`;
* `item.get('part_name','(unknown)')`: the default applies only when the
  key is absent, an empty string is kept;
* the Alt MPN line is emitted only when `str(alt).strip()` is truthy and
  `str(alt).strip().upper() != "N/A"`, and it prints the raw `alt`;
* description / compatible / datasheet lines are emitted only when the
  value is truthy (non-empty). -/
def pretty_card (item : Item) : List CardLine :=
  let img_url := item.image_url.getD ""
  (if img_url ≠ "" then [CardLine.image img_url] else [CardLine.noImage])
  ++ [CardLine.title (item.part_name.getD "(unknown)"),
      CardLine.brand (item.brand.getD ""),
      CardLine.mpn (item.mpn.getD "")]
  ++ (let alt := item.alt_mpn.getD ""
      if pyStrip alt ≠ "" ∧ pyUpper (pyStrip alt) ≠ "N/A" then [CardLine.altMpn alt] else [])
  ++ [CardLine.category (item.category.getD "")]
  ++ (let desc := item.description.getD ""
      if desc ≠ "" then [CardLine.description desc] else [])
  ++ (let comp := item.compatible_models.getD ""
      if comp ≠ "" then [CardLine.compatible comp] else [])
  ++ (let ds := item.datasheet_url.getD ""
      if ds ≠ "" then [CardLine.datasheetLink ds] else [])

/-- Is this card line the Alt MPN line? -/
def isAltLine : CardLine → Bool
  | CardLine.altMpn _ => true
  | _ => false

/-- Is this card line the title line? -/
def isTitleLine : CardLine → Bool
  | CardLine.title _ => true
  | _ => false

/-! ## OCR client (`ocr_space_image_bytes`, lines 11-28) -/

/-- One entry of the `ParsedResults` array of an OCR.space response; the
field holds the value of `p.get("ParsedText", "")` (absent key already
defaulted to `""`, as in line 25). -/
structure OcrEntry where
  parsedText : String
deriving DecidableEq, Repr

/-- The JSON body of a successfully parsed OCR.space response:
`IsErroredOnProcessing` (absent key is falsy, modelled as `false`) and
`ParsedResults` (`js.get("ParsedResults", [])`, absent key already
defaulted to `[]`). -/
structure OcrResponse where
  isErroredOnProcessing : Bool
  parsedResults : List OcrEntry
deriving DecidableEq, Repr

/-- Outcome of the `requests.post` + `raise_for_status` + `r.json()`
sequence in the OCR client's `try` block: an exception at the HTTP level
(non-2xx raised by `raise_for_status`, network error, timeout), an
exception from JSON parsing, or a parsed body. -/
inductive OcrNetResult where
  | httpFail (msg : String)
  | malformedJson
  | ok (js : OcrResponse)
deriving DecidableEq, Repr

/-- Does this network outcome make the OCR client return early with `""`
(every exception path and the `IsErroredOnProcessing` flag)? -/
def ocrCallFailed : OcrNetResult → Bool
  | OcrNetResult.httpFail _ => true
  | OcrNetResult.malformedJson => true
  | OcrNetResult.ok js => js.isErroredOnProcessing

/-- `ocr_space_image_bytes(image_bytes, api_key)`, lines 11-28.  The
network is the explicit parameter `net`; the second component counts how
many network calls were made.  Line 26 `(text or "").strip()` is
`text.strip()` for every string `text`, since `"".strip() == ""`. -/
def ocr_space_image_bytes (image_bytes : List Nat) (api_key : String)
    (net : List Nat → OcrNetResult) : String × Nat :=
  if api_key = "" then ("", 0)
  else
    match net image_bytes with
    | OcrNetResult.httpFail _ => ("", 1)
    | OcrNetResult.malformedJson => ("", 1)
    | OcrNetResult.ok js =>
      if js.isErroredOnProcessing then ("", 1)
      else (pyStrip (joinSpace (js.parsedResults.map OcrEntry.parsedText)), 1)

/-! ## Search client (`api_search`, lines 30-36) -/

/-- The JSON body of a search response: `count`, `results` and `items`
keys, each possibly absent (`none`).  A JSON `null` value also reaches the
code as Python `None`, i.e. `none` here. -/
structure SearchResponse where
  count : Option Nat
  results : Option (List Item)
  items : Option (List Item)
deriving DecidableEq, Repr

/-- Outcome of the `requests.get` + `raise_for_status` + `r.json()`
sequence in `api_search`: an exception (non-2xx, network error, timeout,
malformed JSON) carrying its message, or a parsed body. -/
inductive NetResult where
  | ok (resp : SearchResponse)
  | fail (msg : String)
deriving DecidableEq, Repr

/-- UTF-8 encoding of one character, as a list of byte values. -/
def utf8Bytes (c : Char) : List Nat :=
  let n := c.toNat
  if n < 128 then [n]
  else if n < 2048 then [192 + n / 64, 128 + n % 64]
  else if n < 65536 then [224 + n / 4096, 128 + n / 64 % 64, 128 + n % 64]
  else [240 + n / 262144, 128 + n / 4096 % 64, 128 + n / 64 % 64, 128 + n % 64]

/-- Uppercase hexadecimal digit for `n < 16`. -/
def hexDigit (n : Nat) : Char :=
  if n < 10 then Char.ofNat (48 + n) else Char.ofNat (55 + n)

/-- `urllib.parse.quote` on one byte: ASCII letters, digits, `_ . - ~`
and the default-safe `/` pass through; every other byte becomes `%XX`. -/
def quoteByte (n : Nat) : List Char :=
  if (65 ≤ n ∧ n ≤ 90) ∨ (97 ≤ n ∧ n ≤ 122) ∨ (48 ≤ n ∧ n ≤ 57) ∨
      n = 95 ∨ n = 46 ∨ n = 45 ∨ n = 126 ∨ n = 47 then
    [Char.ofNat n]
  else
    ['%', hexDigit (n / 16), hexDigit (n % 16)]

/-- `urllib.parse.quote(s)`: percent-encode the UTF-8 bytes of `s`. -/
def urlQuote (s : String) : String :=
  ⟨((s.data.map utf8Bytes).flatten.map quoteByte).flatten⟩

/-- The URL built on line 33:
`f"{API_BASE.rstrip('/')}/search?q={urllib.parse.quote(query)}"`. -/
def search_url (api_base query : String) : String :=
  rstripSlash api_base ++ "/search?q=" ++ urlQuote query

/-- `api_search(query)`, lines 30-36, with the configured `API_BASE` and
the network as explicit parameters.  Returns the parsed body or the
propagated exception message, plus the number of network calls made. -/
def api_search (api_base : String) (net : String → NetResult)
    (query : String) : Except String SearchResponse × Nat :=
  if api_base = "" then
    (Except.ok { count := some 0, results := some [], items := none }, 0)
  else
    match net (search_url api_base query) with
    | NetResult.ok resp => (Except.ok resp, 1)
    | NetResult.fail msg => (Except.error msg, 1)

/-! ## Orchestrator (lines 90-106) -/

/-- One user-visible Streamlit output of the submission flow, in emission
order: `st.warning`, `st.write`, `st.error`, `st.success`, `st.info`, one
rendered card (`pretty_card` + the following `st.divider`). -/
inductive UIEvent where
  | warning (s : String)
  | write (s : String)
  | error (s : String)
  | success (s : String)
  | info (s : String)
  | card (lines : List CardLine)
  | divider
deriving DecidableEq, Repr

/-- Is this event a rendered result card? -/
def isCardEvent : UIEvent → Bool
  | UIEvent.card _ => true
  | _ => false

/-- Line 97: `items = data.get("results") or data.get("items") or []`.
Python `or` takes the left operand when it is truthy; a list is truthy
exactly when it is non-empty, and an absent key (or JSON `null`) is
falsy. -/
def getItems (data : SearchResponse) : List Item :=
  match data.results with
  | some (x :: xs) => x :: xs
  | _ =>
    match data.items with
    | some (y :: ys) => y :: ys
    | _ => []

/-- Line 98: `count = data.get("count", len(items))` — a key-presence
default, applied only when the `count` key is absent. -/
def getCount (data : SearchResponse) : Nat :=
  data.count.getD (getItems data).length

/-- Lines 99-104: the success branch of the orchestrator — the
"Found ... result(s)." banner, one card and divider per item, and the
no-match hint when the reported count is zero. -/
def renderSuccess (data : SearchResponse) : List UIEvent :=
  let items := getItems data
  let count := getCount data
  UIEvent.success ("Found " ++ toString count ++ " result(s).")
    :: (items.map (fun it => [UIEvent.card (pretty_card it), UIEvent.divider])).flatten
    ++ (if count = 0 then
          [UIEvent.info "No matches. Try another angle: brand + model, or clearer photo of the label/part."]
        else [])

/-- The submission orchestrator, lines 90-106, from the point where the
typed text `q` and the OCR text `ocr_text` are in hand: compose the query;
if it is empty warn and stop, otherwise announce the query and run the
search, rendering results on success and the "Search failed: ..." error
otherwise.  The second component counts search network calls. -/
def orchestrate (q ocr_text api_base : String)
    (net : String → NetResult) : List UIEvent × Nat :=
  let combined_query := compose q ocr_text
  if combined_query = "" then
    ([UIEvent.warning "Please type something or upload a photo."], 0)
  else
    match api_search api_base net combined_query with
    | (Except.ok data, n) =>
      (UIEvent.write ("Searching for: **" ++ combined_query ++ "**")
        :: renderSuccess data, n)
    | (Except.error e, n) =>
      ([UIEvent.write ("Searching for: **" ++ combined_query ++ "**"),
        UIEvent.error ("Search failed: " ++ e)], n)

/-! ## Spec-side definitions

These follow the wording of the specification, to be compared against the
embedded code. -/

/-- Spec wording: the entries "concatenated with a single space between
consecutive entries". -/
def spaceSeparated : List String → String
  | [] => ""
  | [t] => t
  | t :: ts => t ++ " " ++ spaceSeparated ts

/-- Spec wording of the composer: "trim of the single-space join of
[typedText or \x22\x22, ocrText or \x22\x22]". -/
def composeSpec (typed ocr : String) : String :=
  pyStrip (spaceSeparated [typed, ocr])

/-- The result cards contained in a list of UI events, in order. -/
def renderedCards (events : List UIEvent) : List (List CardLine) :=
  events.filterMap fun e =>
    match e with
    | UIEvent.card c => some c
    | _ => none

/-! ## Example values used by witnesses and counterexamples -/

/-- An item whose `alt_mpn` is a whitespace-only, hence non-empty,
string. -/
def altWhitespaceItem : Item :=
  { image_url := none, part_name := none, brand := none, mpn := none,
    alt_mpn := some " ", category := none, description := none,
    compatible_models := none, datasheet_url := none }

/-- An item whose `part_name` key is present but maps to the empty
string. -/
def emptyNameItem : Item :=
  { image_url := none, part_name := some "", brand := none, mpn := none,
    alt_mpn := none, category := none, description := none,
    compatible_models := none, datasheet_url := none }

/-- A plain example item. -/
def itemEx : Item :=
  { image_url := none, part_name := some "Diverter Valve",
    brand := some "Vaillant", mpn := some "178978", alt_mpn := none,
    category := none, description := none, compatible_models := none,
    datasheet_url := none }

/-- An example OCR body with two parsed-result entries. -/
def jsEx : OcrResponse :=
  { isErroredOnProcessing := false,
    parsedResults := [⟨" Vaillant "⟩, ⟨"178978"⟩] }

/-- A response whose `results` key is present but empty while `items` is
non-empty. -/
def respEx : SearchResponse :=
  { count := none, results := some [], items := some [itemEx] }

/-! ## Helper lemmas -/

theorem intercalate_go_eq (acc t : String) (ts : List String) :
    String.intercalate.go acc " " (t :: ts)
      = acc ++ " " ++ spaceSeparated (t :: ts) := by
  induction ts generalizing acc t with
  | nil => rfl
  | cons u us ih =>
    show String.intercalate.go (acc ++ " " ++ t) " " (u :: us) = _
    rw [ih]
    cases us <;> simp [spaceSeparated, String.append_assoc]

/-- Lean's `String.intercalate " "` (the embedding of Python
`" ".join`) agrees with the spec's "single space between consecutive
entries" concatenation. -/
theorem intercalate_eq_spaceSeparated (l : List String) :
    String.intercalate " " l = spaceSeparated l := by
  cases l with
  | nil => rfl
  | cons t ts =>
    show String.intercalate.go t " " ts = _
    cases ts with
    | nil => rfl
    | cons u us =>
      rw [intercalate_go_eq]
      simp [spaceSeparated]

theorem renderedCards_card_blocks (l : List Item) :
    renderedCards
        ((l.map fun it => [UIEvent.card (pretty_card it), UIEvent.divider]).flatten)
      = l.map pretty_card := by
  induction l with
  | nil => rfl
  | cons a t ih =>
    simp only [List.map_cons, List.flatten_cons, renderedCards,
      List.filterMap_append] at ih ⊢
    rw [ih]
    rfl

/-- The success branch renders exactly one card per selected item. -/
theorem renderedCards_renderSuccess (data : SearchResponse) :
    renderedCards (renderSuccess data) = (getItems data).map pretty_card := by
  have hif : ∀ c : Nat, renderedCards
      (if c = 0 then
        [UIEvent.info "No matches. Try another angle: brand + model, or clearer photo of the label/part."]
       else []) = [] := by
    intro c
    split <;> rfl
  simp only [renderSuccess, renderedCards, List.filterMap_cons,
    List.filterMap_append]
  have h1 := renderedCards_card_blocks (getItems data)
  have h2 := hif (getCount data)
  simp only [renderedCards] at h1 h2
  rw [h1, h2, List.append_nil]

/-! ## Claim theorems -/

/-- C1: the query composer is the pure function
`compose(typedText, ocrText) = trim(single-space join of
[typedText or \x22\x22, ocrText or \x22\x22])`, and in particular
`compose "a" "b" = "a b"`, `compose "" "" = ""`, and
`compose "  a  " "" = "a"`. -/
theorem compose_matches_spec :
    (∀ typed ocr : String, compose typed ocr = composeSpec typed ocr) ∧
    compose "a" "b" = "a b" ∧ compose "" "" = "" ∧
    compose "  a  " "" = "a" :=
  ⟨fun _ _ => rfl, by decide, by decide, by decide⟩

/-- C2: whenever the composed query is empty, the orchestrator emits
exactly the warning "Please type something or upload a photo." and makes
zero search network calls; the output does not depend on the search
client's configuration or on the network, so the search client is never
invoked. -/
theorem empty_query_warns_and_skips_search (q ocr_text api_base : String)
    (net : String → NetResult) (h : compose q ocr_text = "") :
    orchestrate q ocr_text api_base net
      = ([UIEvent.warning "Please type something or upload a photo."], 0) := by
  simp [orchestrate, h]

theorem empty_query_warns_and_skips_search_witness :
    compose "" "" = "" ∧
    orchestrate "" "" "http://example" (fun _ => NetResult.fail "boom")
      = ([UIEvent.warning "Please type something or upload a photo."], 0) :=
  ⟨by decide,
   empty_query_warns_and_skips_search "" "" "http://example"
     (fun _ => NetResult.fail "boom") (by decide)⟩

/-- C3: the OCR client returns `""` with no network call when the API key
is empty, and returns `""` (rather than raising) on every failing network
outcome: HTTP-level failure, malformed JSON, or a response with the
processing-error flag set. -/
theorem ocr_fail_soft (image_bytes : List Nat) (api_key : String)
    (net : List Nat → OcrNetResult)
    (h : api_key = "" ∨ ocrCallFailed (net image_bytes) = true) :
    (ocr_space_image_bytes image_bytes api_key net).1 = "" ∧
    (api_key = "" → ocr_space_image_bytes image_bytes api_key net = ("", 0)) := by
  refine ⟨?_, fun hk => by simp [ocr_space_image_bytes, hk]⟩
  rcases h with h | h
  · simp [ocr_space_image_bytes, h]
  · by_cases hk : api_key = ""
    · simp [ocr_space_image_bytes, hk]
    · cases hnet : net image_bytes with
      | httpFail m => simp [ocr_space_image_bytes, hk, hnet]
      | malformedJson => simp [ocr_space_image_bytes, hk, hnet]
      | ok js =>
        have herr : js.isErroredOnProcessing = true := by
          simpa [ocrCallFailed, hnet] using h
        simp [ocr_space_image_bytes, hk, hnet, herr]

theorem ocr_fail_soft_witness :
    ocrCallFailed ((fun _ => OcrNetResult.httpFail "timeout") [7]) = true ∧
    (ocr_space_image_bytes [7] "k" (fun _ => OcrNetResult.httpFail "timeout")).1 = "" :=
  ⟨rfl, (ocr_fail_soft [7] "k" (fun _ => OcrNetResult.httpFail "timeout")
          (Or.inr rfl)).1⟩

/-- C4: on a successful, non-errored OCR response, the client returns the
parsed-text fields of every result entry concatenated with a single space
between consecutive entries, with the final string trimmed. -/
theorem ocr_success_text (image_bytes : List Nat) (api_key : String)
    (net : List Nat → OcrNetResult) (js : OcrResponse)
    (hk : api_key ≠ "") (hnet : net image_bytes = OcrNetResult.ok js)
    (herr : js.isErroredOnProcessing = false) :
    (ocr_space_image_bytes image_bytes api_key net).1
      = pyStrip (spaceSeparated (js.parsedResults.map OcrEntry.parsedText)) := by
  simp [ocr_space_image_bytes, hk, hnet, herr, joinSpace,
    intercalate_eq_spaceSeparated]

theorem ocr_success_text_witness :
    ("k" : String) ≠ "" ∧ jsEx.isErroredOnProcessing = false ∧
    (ocr_space_image_bytes [1] "k" (fun _ => OcrNetResult.ok jsEx)).1
      = pyStrip (spaceSeparated (jsEx.parsedResults.map OcrEntry.parsedText)) :=
  ⟨by decide, rfl,
   ocr_success_text [1] "k" (fun _ => OcrNetResult.ok jsEx) jsEx
     (by decide) rfl rfl⟩

/-- C5: with an empty `API_BASE`, `api_search` returns exactly
`{count: 0, results: []}` and makes zero network calls, for every query
and every network. -/
theorem api_search_empty_base (net : String → NetResult) (query : String) :
    api_search "" net query
      = (Except.ok { count := some 0, results := some [], items := none }, 0) :=
  rfl

/-- C6: when the network outcome of the search call is a failure, the
search client propagates the error (it does not swallow it), and the
orchestrator then emits exactly the announcement line and the error
"Search failed: <message>", renders no result cards, after the single
failed network call. -/
theorem search_failure_surfaced (q ocr_text api_base : String)
    (net : String → NetResult) (msg : String)
    (hq : compose q ocr_text ≠ "") (hb : api_base ≠ "")
    (hnet : net (search_url api_base (compose q ocr_text)) = NetResult.fail msg) :
    api_search api_base net (compose q ocr_text) = (Except.error msg, 1) ∧
    orchestrate q ocr_text api_base net
      = ([UIEvent.write ("Searching for: **" ++ compose q ocr_text ++ "**"),
          UIEvent.error ("Search failed: " ++ msg)], 1) ∧
    (orchestrate q ocr_text api_base net).1.all (fun e => !isCardEvent e) = true := by
  have h1 : api_search api_base net (compose q ocr_text) = (Except.error msg, 1) := by
    simp [api_search, hb, hnet]
  have h2 : orchestrate q ocr_text api_base net
      = ([UIEvent.write ("Searching for: **" ++ compose q ocr_text ++ "**"),
          UIEvent.error ("Search failed: " ++ msg)], 1) := by
    simp [orchestrate, hq, h1]
  refine ⟨h1, h2, ?_⟩
  rw [h2]
  simp [isCardEvent]

theorem search_failure_surfaced_witness :
    compose "a" "" ≠ "" ∧ ("http://x" : String) ≠ "" ∧
    orchestrate "a" "" "http://x" (fun _ => NetResult.fail "500 Server Error")
      = ([UIEvent.write ("Searching for: **" ++ compose "a" "" ++ "**"),
          UIEvent.error ("Search failed: " ++ "500 Server Error")], 1) :=
  ⟨by decide, by decide,
   (search_failure_surfaced "a" "" "http://x"
     (fun _ => NetResult.fail "500 Server Error") "500 Server Error"
     (by decide) (by decide) rfl).2.1⟩

/-- C7: a response `{items: [x]}` with no `results` and no `count` field
renders identically (same banner with the same reported count, same
cards) to `{results: [x], count: 1}`. -/
theorem items_field_round_trip (x : Item) :
    renderSuccess { count := none, results := none, items := some [x] }
      = renderSuccess { count := some 1, results := some [x], items := none } :=
  rfl

/-- C8 counterexample: for the item whose `alt_mpn` is the whitespace-only
string `" "`, the claimed rule (suppressed exactly for absent, empty, or
case-insensitively "N/A" values; any other non-empty value shown) fails:
`" "` is non-empty and not "N/A", yet the code suppresses the line because
it strips the value before testing it. -/
theorem alt_mpn_rule_counterexample :
    ¬ (((pretty_card altWhitespaceItem).any isAltLine = false) ↔
        (altWhitespaceItem.alt_mpn = none ∨ altWhitespaceItem.alt_mpn = some "" ∨
         pyUpper (altWhitespaceItem.alt_mpn.getD "") = "N/A")) := by
  decide

/-- C8 amended: the Alt MPN line is suppressed exactly when the stripped
`alt_mpn` value (empty when the key is absent) is empty or equals "N/A"
case-insensitively; every value whose stripped form is non-empty and not
"N/A" is shown. -/
theorem alt_mpn_rule (item : Item) :
    ((pretty_card item).any isAltLine = true) ↔
      (pyStrip (item.alt_mpn.getD "") ≠ "" ∧
       pyUpper (pyStrip (item.alt_mpn.getD "")) ≠ "N/A") := by
  unfold pretty_card
  simp only [List.any_append, List.any_cons, List.any_nil, isAltLine,
    Bool.or_false, Bool.false_or, Bool.or_eq_true]
  split_ifs <;> simp_all [isAltLine]

/-- C9 counterexample: for the item whose `part_name` key is present but
empty, the rendered title is the empty string, not the claimed
"(unknown)" fallback: the code's `dict.get` default applies only to an
absent key. -/
theorem title_fallback_counterexample :
    emptyNameItem.part_name = some "" ∧
    (pretty_card emptyNameItem).filter isTitleLine = [CardLine.title ""] ∧
    CardLine.title "(unknown)" ∉ pretty_card emptyNameItem := by
  decide

/-- C9 amended: every card has exactly one title line; its text is
`part_name` whenever that key is present (including when it is empty),
and the literal "(unknown)" exactly when the key is absent. -/
theorem title_from_part_name (item : Item) :
    (pretty_card item).filter isTitleLine
      = [CardLine.title (item.part_name.getD "(unknown)")] := by
  unfold pretty_card
  simp only [List.filter_append, List.filter_cons, List.filter_nil, isTitleLine]
  split_ifs <;> simp_all [isTitleLine]

/-- C10: line 97 falls back by truthiness, not key presence: when the
`results` key is present but empty (or null, which reaches the code as the
same absent value) and `items` is a non-empty array, the orchestrator
selects and renders the entries of `items`. -/
theorem results_truthiness_fallback (data : SearchResponse) (y : Item)
    (ys : List Item)
    (hres : data.results = some [] ∨ data.results = none)
    (hitems : data.items = some (y :: ys)) :
    getItems data = y :: ys ∧
    renderedCards (renderSuccess data) = (y :: ys).map pretty_card := by
  have h : getItems data = y :: ys := by
    rcases hres with h | h <;> simp [getItems, h, hitems]
  exact ⟨h, by rw [renderedCards_renderSuccess, h]⟩

theorem results_truthiness_fallback_witness :
    (respEx.results = some [] ∨ respEx.results = none) ∧
    respEx.items = some [itemEx] ∧ getItems respEx = [itemEx] :=
  ⟨Or.inl rfl, rfl,
   (results_truthiness_fallback respEx itemEx [] (Or.inl rfl) rfl).1⟩

end PlumbID
